import Mathlib

/-!

Verification of the DynamoDB batch-item subsystem of hailocab/goamz.

The embedded code is the dynamodb part of src/rds/rds.go: the Item and
BatchWriteItemRequest builders, the pre-dispatch validation and response
parsing of Table.BatchWriteItem, Table.GetItem, and parseAttributes.
Go maps are modelled as association lists (one iteration order), Go strings
as Lean strings with Go's len modelled as the UTF-8 byte size, the
loosely-typed JSON values produced by simplejson as an inductive JsonValue,
and the network round trip as an explicit transport outcome passed in
(an Except value standing for the pair returned by Server.queryServer
followed by simplejson.NewJson).

-/

/-- Modelled from the spec: the scalar string wire tag "S" of section 6; the
TYPE_STRING constant itself is declared in the repository's attribute.go,
which is not under src/. -/
def TYPE_STRING : String := "S"

/-- Modelled from the spec: the scalar number wire tag "N" of section 6. -/
def TYPE_NUMBER : String := "N"

/-- Modelled from the spec: the scalar binary wire tag "B" of section 6. -/
def TYPE_BINARY : String := "B"

/-- Modelled from the spec: the string-set wire tag "SS" of section 6. -/
def TYPE_STRING_SET : String := "SS"

/-- Modelled from the spec: the number-set wire tag "NS" of section 6. -/
def TYPE_NUMBER_SET : String := "NS"

/-- Modelled from the spec: the binary-set wire tag "BS" of section 6. -/
def TYPE_BINARY_SET : String := "BS"

/-- Go len on a string: the number of UTF-8 bytes. -/
def goLen (s : String) : Nat := s.utf8ByteSize

/-- The dynamodb Attribute struct. Its declaration lives in the repository's
attribute.go (not under src/), but all four fields are fixed by their uses in
parseAttributes (src/rds/rds.go:636-703). Type' models the Go field Type
(a reserved word in Lean). -/
structure Attribute where
  Type' : String
  Name : String
  Value : String
  SetValues : List String
deriving Repr, DecidableEq

/-- The dynamodb Item struct (src/rds/rds.go:282-284): an ordered sequence of
attributes. -/
structure Item where
  attributes : List Attribute
deriving Repr, DecidableEq

/-- Item.GetSize (src/rds/rds.go:304-311): sums len(attribute.Value) over all
attributes of the item, in a running-total loop. -/
def Item.GetSize (i : Item) : Nat :=
  i.attributes.foldl (fun size a => size + goLen a.Value) 0

/-- BatchWriteItemOperations (src/rds/rds.go:272-275). -/
structure BatchWriteItemOperations where
  deleteRequest : List Item
  putRequest : List Item
deriving Repr, DecidableEq

/-- BatchWriteItemRequest (src/rds/rds.go:266-270); the operations map keyed by
table name is modelled as an association list in one iteration order (the two
response-shaping flags are inert and omitted). -/
structure BatchWriteItemRequest where
  operations : List (String × BatchWriteItemOperations)
deriving Repr, DecidableEq

/-- BatchWriteItemOperations.GetDeleteRequest (src/rds/rds.go:371-373). -/
def BatchWriteItemOperations.GetDeleteRequest (b : BatchWriteItemOperations) : List Item :=
  b.deleteRequest

/-- BatchWriteItemOperations.GetPutRequest (src/rds/rds.go:375-377). -/
def BatchWriteItemOperations.GetPutRequest (b : BatchWriteItemOperations) : List Item :=
  b.putRequest

/-- BatchWriteItemRequest.GetItems (src/rds/rds.go:355-369): flattens the
request into one list, appending each table's delete requests and then its put
requests. -/
def BatchWriteItemRequest.GetItems (b : BatchWriteItemRequest) : List Item :=
  b.operations.foldl
    (fun items p => (items ++ p.2.GetDeleteRequest) ++ p.2.GetPutRequest) []

/-- The loosely-typed JSON values handed around by simplejson
(Go interface values holding nil, bool, float64, string, slice or map;
the numeric payload is kept as text since the code never inspects it). -/
inductive JsonValue where
  | null
  | bool (b : Bool)
  | num (n : String)
  | str (s : String)
  | arr (elems : List JsonValue)
  | obj (fields : List (String × JsonValue))
deriving Repr

/-- The error conditions of the subsystem, named after the spec's taxonomy
(section 7); each dynamodb error site in src/rds/rds.go builds a distinct
errors.New message, listed next to the constructor it maps to. -/
inductive DynamoError where
  /-- "Each request cannot contain more than 25 items" (src/rds/rds.go:472) -/
  | TooManyItems
  /-- "The request must contain at least 1 item" (src/rds/rds.go:476) -/
  | EmptyRequest
  /-- "The size of the item cannot exceed 64KB" (src/rds/rds.go:484) -/
  | ItemTooLarge
  /-- "The size of the request cannot exceed 1MB" (src/rds/rds.go:489) -/
  | RequestTooLarge
  /-- "Unexpected response ..." (several decoding sites) -/
  | MalformedResponse
  /-- ErrNotFound returned by Table.GetItem (src/rds/rds.go:457) -/
  | NotFound
  /-- opaque transport or JSON-syntax failure propagated unchanged -/
  | Transport
deriving Repr, DecidableEq

/-- Field access json.Get(k) / map indexing on a decoded JSON object: some
value when the json is an object carrying the key, none otherwise. -/
def JsonValue.getField : JsonValue → String → Option JsonValue
  | .obj fields, k => List.lookup k fields
  | _, _ => none

/-- The Go type assertion value.(string) applied to an optional field. -/
def asString : Option JsonValue → Option String
  | some (.str s) => some s
  | _ => none

/-- The Go type assertion value.([]interface\x7b\x7d) applied to an optional field. -/
def asArray : Option JsonValue → Option (List JsonValue)
  | some (.arr xs) => some xs
  | _ => none

/-- One iteration of the Go loop filling arry := make([]string, len(vals)) in
parseAttributes (src/rds/rds.go:660-665 and twins): a string element is kept,
any other element leaves the zero value "". -/
def setElem : JsonValue → String
  | .str s => s
  | _ => ""

/-- The six-way cascade of parseAttributes for a single attribute entry
(src/rds/rds.go:640-698): probes the type tags in order S, N, B, SS, NS, BS;
a non-object value or an object matching no tag yields none (the Go code
skips the entry). -/
def parseOneAttribute (key : String) (value : JsonValue) : Option Attribute :=
  match value with
  | .obj v =>
    match asString (List.lookup TYPE_STRING v) with
    | some val => some ⟨TYPE_STRING, key, val, []⟩
    | none =>
      match asString (List.lookup TYPE_NUMBER v) with
      | some val => some ⟨TYPE_NUMBER, key, val, []⟩
      | none =>
        match asString (List.lookup TYPE_BINARY v) with
        | some val => some ⟨TYPE_BINARY, key, val, []⟩
        | none =>
          match asArray (List.lookup TYPE_STRING_SET v) with
          | some vals => some ⟨TYPE_STRING_SET, key, "", vals.map setElem⟩
          | none =>
            match asArray (List.lookup TYPE_NUMBER_SET v) with
            | some vals => some ⟨TYPE_NUMBER_SET, key, "", vals.map setElem⟩
            | none =>
              match asArray (List.lookup TYPE_BINARY_SET v) with
              | some vals => some ⟨TYPE_BINARY_SET, key, "", vals.map setElem⟩
              | none => none
  | _ => none

/-- parseAttributes (src/rds/rds.go:636-703): decodes each field of a JSON
object into an attribute keyed by name, dropping entries the cascade rejects. -/
def parseAttributes (s : List (String × JsonValue)) : List (String × Attribute) :=
  s.filterMap (fun kv => (parseOneAttribute kv.1 kv.2).map (fun a => (kv.1, a)))

/-- The per-item size loop and trailing aggregate check of Table.BatchWriteItem
(src/rds/rds.go:479-490): accumulate each item's size, returning ItemTooLarge
as soon as one item exceeds 65536 bytes, and RequestTooLarge after the loop
when the running total exceeds 1048576 bytes. -/
def sizeCheck : List Item → Nat → Option DynamoError
  | [], totalSize => if totalSize > 1048576 then some .RequestTooLarge else none
  | item :: rest, totalSize =>
    let size := item.GetSize
    if size > 65536 then some .ItemTooLarge
    else sizeCheck rest (totalSize + size)

/-- The pre-dispatch validation of Table.BatchWriteItem (src/rds/rds.go:471-490)
in the code's textual order: count upper bound, count lower bound, then the
size loop. -/
def batchWriteValidate (request : BatchWriteItemRequest) : Option DynamoError :=
  if request.GetItems.length > 25 then some .TooManyItems
  else if request.GetItems.length = 0 then some .EmptyRequest
  else sizeCheck request.GetItems 0

/-- The unprocessed-items result: table name, then operation kind, then the
reconstructed items in response order. -/
abbrev BatchResult := List (String × List (String × List Item))

/-- tableResult[opType] = append(tableResult[opType], item) on the Go
map-of-slice accumulator, modelled on an association list. -/
def appendAt (m : List (String × List Item)) (k : String) (v : Item) :
    List (String × List Item) :=
  match m with
  | [] => [(k, [v])]
  | (k', vs) :: rest =>
    if k' = k then (k', vs ++ [v]) :: rest else (k', vs) :: appendAt rest k v

/-- The innermost loop of Table.BatchWriteItem's response walk
(src/rds/rds.go:537-548): each value of the operation's object must itself be
an object of wire attributes; a reconstructed Item (attributes added from the
parseAttributes map) is appended under the operation kind. -/
def parseItems (opType : String) :
    List (String × JsonValue) → List (String × List Item) →
    Except DynamoError (List (String × List Item))
  | [], acc => .ok acc
  | (_, attributesJson) :: rest, acc =>
    match attributesJson with
    | .obj attributesArray =>
      parseItems opType rest
        (appendAt acc opType ⟨(parseAttributes attributesArray).map Prod.snd⟩)
    | _ => .error .MalformedResponse

/-- The operation loop of Table.BatchWriteItem's response walk
(src/rds/rds.go:530-549): each operation kind must map to an object. -/
def parseOperations :
    List (String × JsonValue) → List (String × List Item) →
    Except DynamoError (List (String × List Item))
  | [], acc => .ok acc
  | (opType, itemsJson) :: rest, acc =>
    match itemsJson with
    | .obj itemsArray =>
      match parseItems opType itemsArray acc with
      | .error e => .error e
      | .ok acc' => parseOperations rest acc'
    | _ => .error .MalformedResponse

/-- The container loop of Table.BatchWriteItem's response walk
(src/rds/rds.go:523-550): each element of a table's array must be an object
mapping operation kinds to items. -/
def parseContainers :
    List JsonValue → List (String × List Item) →
    Except DynamoError (List (String × List Item))
  | [], acc => .ok acc
  | container :: rest, acc =>
    match container with
    | .obj operations =>
      match parseOperations operations acc with
      | .error e => .error e
      | .ok acc' => parseContainers rest acc'
    | _ => .error .MalformedResponse

/-- The table loop of Table.BatchWriteItem's response walk
(src/rds/rds.go:514-553): each table's value must be an array of containers. -/
def parseTables : List (String × JsonValue) → Except DynamoError BatchResult
  | [] => .ok []
  | (table, containerJson) :: rest =>
    match containerJson with
    | .arr containerArray =>
      match parseContainers containerArray [] with
      | .error e => .error e
      | .ok tableResult =>
        match parseTables rest with
        | .error e => .error e
        | .ok results => .ok ((table, tableResult) :: results)
    | _ => .error .MalformedResponse

/-- The response half of Table.BatchWriteItem (src/rds/rds.go:507-555):
json.Get("UnprocessedItems").Map() fails unless the field is present and an
object, in which case the table walk runs. -/
def parseBatchWriteResponse (json : JsonValue) : Except DynamoError BatchResult :=
  match json.getField "UnprocessedItems" with
  | some (.obj tables) => parseTables tables
  | _ => .error .MalformedResponse

/-- Table.BatchWriteItem (src/rds/rds.go:470-556): validation first, then the
transport call (modelled as an explicit outcome), then response parsing. -/
def BatchWriteItem (request : BatchWriteItemRequest)
    (transport : Except DynamoError JsonValue) : Except DynamoError BatchResult :=
  match batchWriteValidate request with
  | some e => .error e
  | none =>
    match transport with
    | .error e => .error e
    | .ok json => parseBatchWriteResponse json

/-- simplejson CheckGet: the field's value and success exactly when the json is
an object carrying the key. -/
def checkGet (json : JsonValue) (k : String) : Option JsonValue :=
  json.getField k

/-- Table.GetItem (src/rds/rds.go:440-468): transport outcome in, then
CheckGet("Item") distinguishing NotFound, then Map() on the item value
distinguishing MalformedResponse, then parseAttributes. -/
def GetItem (transport : Except DynamoError JsonValue) :
    Except DynamoError (List (String × Attribute)) :=
  match transport with
  | .error e => .error e
  | .ok json =>
    match checkGet json "Item" with
    | none => .error .NotFound
    | some itemJson =>
      match itemJson with
      | .obj item => .ok (parseAttributes item)
      | _ => .error .MalformedResponse

/-- The three scalar wire tags. -/
def isScalarType (t : String) : Bool :=
  t == TYPE_STRING || t == TYPE_NUMBER || t == TYPE_BINARY

/-- The three set wire tags. -/
def isSetType (t : String) : Bool :=
  t == TYPE_STRING_SET || t == TYPE_NUMBER_SET || t == TYPE_BINARY_SET

/-- Modelled from the spec: Encode(Attribute) of section 4.1 with the wire
forms of section 6 — a scalar attribute becomes the single-key object
tag-to-Value, a set attribute the single-key object tag-to-SetValues; the
repository's encoder lives in attribute.go, which is not under src/. -/
def encodeAttribute (a : Attribute) : JsonValue :=
  if isScalarType a.Type' then .obj [(a.Type', .str a.Value)]
  else .obj [(a.Type', .arr (a.SetValues.map .str))]

/-- The data-model invariant of spec section 3: exactly one of Value/SetValues
is meaningful, determined by the type. -/
def wellFormedAttribute (a : Attribute) : Bool :=
  (isScalarType a.Type' && a.SetValues.isEmpty) ||
  (isSetType a.Type' && a.Value == "")

/-- The validation order exactly as the spec words it (section 4.4): item-count
lower bound, item-count upper bound, per-item size, aggregate size, first
violated check reported. This definition follows the spec's words and is
compared against batchWriteValidate, which follows the code. -/
def specOrderViolation (r : BatchWriteItemRequest) : Option DynamoError :=
  if r.GetItems.length = 0 then some .EmptyRequest
  else if r.GetItems.length > 25 then some .TooManyItems
  else if r.GetItems.any (fun i => decide (i.GetSize > 65536)) then some .ItemTooLarge
  else if (r.GetItems.map Item.GetSize).sum > 1048576 then some .RequestTooLarge
  else none

/-! Helper lemmas about sizes and validation. -/

theorem utf8Size_a : Char.utf8Size 'a' = 1 := by decide

theorem goLen_replicate (n : Nat) : goLen (String.mk (List.replicate n 'a')) = n := by
  induction n with
  | zero => rfl
  | succ k ih =>
    simp [goLen, List.replicate_succ, utf8Size_a] at ih ⊢
    omega

theorem foldl_add_goLen (l : List Attribute) (n : Nat) :
    l.foldl (fun size a => size + goLen a.Value) n
      = n + (l.map (fun a => goLen a.Value)).sum := by
  induction l generalizing n with
  | nil => simp
  | cons a rest ih => simp [List.foldl_cons, ih, Nat.add_assoc]

theorem GetSize_eq_sum (i : Item) :
    i.GetSize = (i.attributes.map (fun a => goLen a.Value)).sum := by
  simpa [Item.GetSize] using foldl_add_goLen i.attributes 0

theorem GetSize_single (a : Attribute) : Item.GetSize ⟨[a]⟩ = goLen a.Value := by
  simp [GetSize_eq_sum]

theorem sizeCheck_eq (items : List Item) (acc : Nat) :
    sizeCheck items acc =
      if items.any (fun i => decide (i.GetSize > 65536)) then some .ItemTooLarge
      else if acc + (items.map Item.GetSize).sum > 1048576 then some .RequestTooLarge
      else none := by
  induction items generalizing acc with
  | nil => simp [sizeCheck]
  | cons item rest ih =>
    by_cases h : item.GetSize > 65536
    · simp [sizeCheck, h]
    · simp [sizeCheck, h, ih, Nat.add_assoc]

theorem batchWriteValidate_eq_specOrder (r : BatchWriteItemRequest) :
    batchWriteValidate r = specOrderViolation r := by
  unfold batchWriteValidate specOrderViolation
  rcases Nat.eq_zero_or_pos r.GetItems.length with h0 | h0
  · simp [h0]
  · have h0' : r.GetItems.length ≠ 0 := Nat.pos_iff_ne_zero.mp h0
    by_cases h25 : r.GetItems.length > 25
    · simp [h25, h0']
    · simp [h25, h0', sizeCheck_eq]

/-! Claim theorems. -/

/-- C1: BatchWriteItem validates the request before any transport interaction:
whenever the request violates one or more of the four bounds, the error
returned is that of the first violated check in the spec's order (item-count
lower bound, item-count upper bound, per-item size, aggregate size), and the
outcome is identical for every transport, so no transport call can influence
it. -/
theorem batchWrite_validation_order (r : BatchWriteItemRequest) (e : DynamoError)
    (t₁ t₂ : Except DynamoError JsonValue) (h : specOrderViolation r = some e) :
    BatchWriteItem r t₁ = .error e ∧ BatchWriteItem r t₁ = BatchWriteItem r t₂ := by
  have hv : batchWriteValidate r = some e := by
    rw [batchWriteValidate_eq_specOrder]; exact h
  constructor <;> simp [BatchWriteItem, hv]

/-- An empty batch request. -/
def emptyReq : BatchWriteItemRequest := ⟨[]⟩

theorem batchWrite_validation_order_w :
    BatchWriteItem emptyReq (.ok (.obj [])) = .error .EmptyRequest ∧
    BatchWriteItem emptyReq (.ok (.obj [])) = BatchWriteItem emptyReq (.error .Transport) :=
  batchWrite_validation_order emptyReq .EmptyRequest _ _ rfl

/-- C2: a batch request whose total item count across all tables and both
operation kinds exceeds 25 fails with TooManyItems regardless of the
transport; a request of exactly 25 items never produces TooManyItems, and
absent any size violation it proceeds to dispatch (the outcome is the parse
of the transport's response). -/
theorem batchWrite_count_limits :
    (∀ (r : BatchWriteItemRequest) (t : Except DynamoError JsonValue),
        25 < r.GetItems.length → BatchWriteItem r t = .error .TooManyItems) ∧
    (∀ r : BatchWriteItemRequest, r.GetItems.length = 25 →
        batchWriteValidate r ≠ some .TooManyItems) ∧
    (∀ (r : BatchWriteItemRequest) (json : JsonValue), r.GetItems.length = 25 →
        (∀ i ∈ r.GetItems, i.GetSize ≤ 65536) →
        (r.GetItems.map Item.GetSize).sum ≤ 1048576 →
        BatchWriteItem r (.ok json) = parseBatchWriteResponse json) := by
  refine ⟨?_, ?_, ?_⟩
  · intro r t h
    simp [BatchWriteItem, batchWriteValidate, h]
  · intro r h
    rw [batchWriteValidate, h]
    simp only [show ¬ (25 > 25) by omega, if_false, show (25 : Nat) ≠ 0 by omega, if_neg]
    rw [sizeCheck_eq]
    split
    · decide
    · split <;> decide
  · intro r json h hitems hsum
    have hany : r.GetItems.any (fun i => decide (i.GetSize > 65536)) = false := by
      simp only [List.any_eq_false, decide_eq_true_eq]
      intro i hi
      exact Nat.not_lt.mpr (hitems i hi)
    have hv : batchWriteValidate r = none := by
      rw [batchWriteValidate, h]
      simp only [show ¬ (25 > 25) by omega, if_false, show (25 : Nat) ≠ 0 by omega, if_neg]
      rw [sizeCheck_eq, hany]
      simp [Nat.not_lt.mpr hsum]
    simp [BatchWriteItem, hv]

/-- An item with no attributes (size 0). -/
def noAttrItem : Item := ⟨[]⟩

/-- A single-table request of 26 put items. -/
def req26 : BatchWriteItemRequest := ⟨[("T", ⟨[], List.replicate 26 noAttrItem⟩)]⟩

/-- A single-table request of 25 put items. -/
def req25 : BatchWriteItemRequest := ⟨[("T", ⟨[], List.replicate 25 noAttrItem⟩)]⟩

/-- The full-success batch write response. -/
def respEmpty : JsonValue := .obj [("UnprocessedItems", .obj [])]

theorem batchWrite_count_limits_w :
    BatchWriteItem req26 (.ok respEmpty) = .error .TooManyItems ∧
    BatchWriteItem req25 (.ok respEmpty) = parseBatchWriteResponse respEmpty :=
  ⟨batchWrite_count_limits.1 req26 _ (by decide),
   batchWrite_count_limits.2.2 req25 respEmpty (by decide) (by decide) (by decide)⟩

/-- C3: within the 25-item count bound, any item of computed size above 65536
bytes makes BatchWriteItem fail with ItemTooLarge for every transport; when
every item is at most 65536 bytes (in particular exactly 65536), the per-item
check never fires. -/
theorem batchWrite_item_size_limit :
    (∀ (r : BatchWriteItemRequest) (t : Except DynamoError JsonValue) (item : Item),
        item ∈ r.GetItems → r.GetItems.length ≤ 25 → 65536 < item.GetSize →
        BatchWriteItem r t = .error .ItemTooLarge) ∧
    (∀ r : BatchWriteItemRequest, (∀ i ∈ r.GetItems, i.GetSize ≤ 65536) →
        batchWriteValidate r ≠ some .ItemTooLarge) := by
  constructor
  · intro r t item hmem hlen hbig
    have hne : r.GetItems.length ≠ 0 := by
      intro h0
      rw [List.length_eq_zero] at h0
      rw [h0] at hmem
      exact absurd hmem (List.not_mem_nil item)
    have hany : r.GetItems.any (fun i => decide (i.GetSize > 65536)) = true := by
      simp only [List.any_eq_true, decide_eq_true_eq]
      exact ⟨item, hmem, hbig⟩
    have hv : batchWriteValidate r = some .ItemTooLarge := by
      rw [batchWriteValidate, if_neg (by omega), if_neg hne, sizeCheck_eq, hany]
      simp
    simp [BatchWriteItem, hv]
  · intro r hitems hv
    have hany : r.GetItems.any (fun i => decide (i.GetSize > 65536)) = false := by
      simp only [List.any_eq_false, decide_eq_true_eq]
      intro i hi
      exact Nat.not_lt.mpr (hitems i hi)
    rw [batchWriteValidate] at hv
    split at hv
    · simp at hv
    · split at hv
      · simp at hv
      · rw [sizeCheck_eq, hany] at hv
        simp only [Bool.false_eq_true, if_false] at hv
        split at hv <;> simp at hv

/-- A 65537-byte string. -/
def str65537 : String := String.mk (List.replicate 65537 'a')

/-- A 65536-byte string. -/
def str65536 : String := String.mk (List.replicate 65536 'a')

/-- An item whose single string attribute is 65537 bytes. -/
def bigItem : Item := ⟨[⟨TYPE_STRING, "big", str65537, []⟩]⟩

/-- An item whose single string attribute is exactly 65536 bytes. -/
def okItem : Item := ⟨[⟨TYPE_STRING, "ok", str65536, []⟩]⟩

theorem bigItem_size : bigItem.GetSize = 65537 :=
  calc bigItem.GetSize = goLen str65537 := GetSize_single ⟨TYPE_STRING, "big", str65537, []⟩
    _ = 65537 := goLen_replicate 65537

theorem okItem_size : okItem.GetSize = 65536 :=
  calc okItem.GetSize = goLen str65536 := GetSize_single ⟨TYPE_STRING, "ok", str65536, []⟩
    _ = 65536 := goLen_replicate 65536

/-- A request carrying only the 65537-byte item. -/
def reqBig : BatchWriteItemRequest := ⟨[("T", ⟨[], [bigItem]⟩)]⟩

/-- A request carrying only the 65536-byte item. -/
def reqOk : BatchWriteItemRequest := ⟨[("T", ⟨[], [okItem]⟩)]⟩

theorem batchWrite_item_size_limit_w :
    BatchWriteItem reqBig (.ok respEmpty) = .error .ItemTooLarge ∧
    batchWriteValidate reqOk ≠ some .ItemTooLarge := by
  constructor
  · refine batchWrite_item_size_limit.1 reqBig _ bigItem ?_ ?_ ?_
    · rw [show reqBig.GetItems = [bigItem] from rfl]
      exact List.mem_singleton.mpr rfl
    · rw [show reqBig.GetItems = [bigItem] from rfl]
      simp
    · rw [bigItem_size]
      omega
  · refine batchWrite_item_size_limit.2 reqOk ?_
    intro i hi
    rw [show reqOk.GetItems = [okItem] from rfl] at hi
    rw [List.mem_singleton.mp hi, okItem_size]

/-- C4: within the count and per-item bounds, a request whose items' computed
sizes together exceed 1048576 bytes fails with RequestTooLarge for every
transport. -/
theorem batchWrite_request_size_limit (r : BatchWriteItemRequest)
    (t : Except DynamoError JsonValue)
    (hlen : r.GetItems.length ≤ 25)
    (hitems : ∀ i ∈ r.GetItems, i.GetSize ≤ 65536)
    (hsum : 1048576 < (r.GetItems.map Item.GetSize).sum) :
    BatchWriteItem r t = .error .RequestTooLarge := by
  have hne : r.GetItems.length ≠ 0 := by
    intro h0
    rw [List.length_eq_zero] at h0
    rw [h0] at hsum
    simp at hsum
  have hany : r.GetItems.any (fun i => decide (i.GetSize > 65536)) = false := by
    simp only [List.any_eq_false, decide_eq_true_eq]
    intro i hi
    exact Nat.not_lt.mpr (hitems i hi)
  have hv : batchWriteValidate r = some .RequestTooLarge := by
    rw [batchWriteValidate, if_neg (by omega), if_neg hne, sizeCheck_eq, hany]
    simp [hsum]
  simp [BatchWriteItem, hv]

/-- Seventeen items of 65536 bytes each: 17 * 65536 = 1114112 > 1048576. -/
def req17 : BatchWriteItemRequest := ⟨[("T", ⟨[], List.replicate 17 okItem⟩)]⟩

theorem req17_items : req17.GetItems = List.replicate 17 okItem := rfl

theorem batchWrite_request_size_limit_w :
    BatchWriteItem req17 (.ok respEmpty) = .error .RequestTooLarge := by
  refine batchWrite_request_size_limit req17 _ ?_ ?_ ?_
  · rw [req17_items]
    simp
  · intro i hi
    rw [req17_items] at hi
    rw [List.eq_of_mem_replicate hi, okItem_size]
  · rw [req17_items, List.map_replicate, okItem_size, List.sum_replicate, smul_eq_mul]
    omega

/-! Disjointness of the scalar and set tag families. -/

theorem goLen_empty : goLen "" = 0 := rfl

theorem scalar_of_set (t : String) (h : isSetType t = true) : isScalarType t = false := by
  unfold isSetType at h
  simp only [Bool.or_eq_true, beq_iff_eq] at h
  rcases h with (h | h) | h <;> rw [h] <;> decide

theorem sum_map_filter_scalar (l : List Attribute)
    (h : ∀ a ∈ l, isScalarType a.Type' = true ∨
        (isSetType a.Type' = true ∧ a.Value = "")) :
    (l.map (fun a => goLen a.Value)).sum =
      ((l.filter (fun a => isScalarType a.Type')).map (fun a => goLen a.Value)).sum := by
  induction l with
  | nil => rfl
  | cons a rest ih =>
    have ha := h a (List.mem_cons_self a rest)
    have hrest := ih (fun x hx => h x (List.mem_cons_of_mem a hx))
    rcases ha with hs | ⟨hset, hval⟩
    · simp [List.filter_cons, hs, hrest]
    · have hns := scalar_of_set _ hset
      simp [List.filter_cons, hns, hrest, hval, goLen_empty]

/-- C5: an item's GetSize is the sum of the byte lengths of its scalar
attributes' Value fields (given the data-model invariant that set-typed
attributes carry an empty Value), and an item whose attributes are all
set-typed with empty Value has size 0 no matter what its SetValues hold. -/
theorem item_getSize_scalar_only :
    (∀ item : Item,
        (∀ a ∈ item.attributes, isScalarType a.Type' = true ∨
            (isSetType a.Type' = true ∧ a.Value = "")) →
        item.GetSize =
          ((item.attributes.filter (fun a => isScalarType a.Type')).map
            (fun a => goLen a.Value)).sum) ∧
    (∀ item : Item,
        (∀ a ∈ item.attributes, isSetType a.Type' = true ∧ a.Value = "") →
        item.GetSize = 0) := by
  constructor
  · intro item h
    rw [GetSize_eq_sum]
    exact sum_map_filter_scalar item.attributes h
  · intro item h
    rw [GetSize_eq_sum]
    have : ∀ a ∈ item.attributes, isScalarType a.Type' = true ∨
        (isSetType a.Type' = true ∧ a.Value = "") :=
      fun a ha => Or.inr (h a ha)
    rw [sum_map_filter_scalar item.attributes this]
    have hfil : item.attributes.filter (fun a => isScalarType a.Type') = [] := by
      rw [List.filter_eq_nil_iff]
      intro a ha
      rw [scalar_of_set _ (h a ha).1]
      exact Bool.false_ne_true
    rw [hfil]
    rfl

/-- An item holding one string attribute and one binary-set attribute. -/
def mixedItem : Item := ⟨[⟨TYPE_STRING, "a", "abc", []⟩, ⟨TYPE_BINARY_SET, "b", "", ["zzzz"]⟩]⟩

/-- An item holding only set-valued attributes with non-trivial SetValues. -/
def setsItem : Item :=
  ⟨[⟨TYPE_STRING_SET, "s", "", ["wwww", "xxxx"]⟩, ⟨TYPE_NUMBER_SET, "n", "", ["123456"]⟩]⟩

theorem item_getSize_scalar_only_w :
    mixedItem.GetSize =
      ((mixedItem.attributes.filter (fun a => isScalarType a.Type')).map
        (fun a => goLen a.Value)).sum ∧
    setsItem.GetSize = 0 :=
  ⟨item_getSize_scalar_only.1 mixedItem (by decide),
   item_getSize_scalar_only.2 setsItem (by decide)⟩

/-- C6: once validation passes, a response whose "UnprocessedItems" field is
absent or bound to anything but an object makes BatchWriteItem fail with
MalformedResponse, while a present empty object parses to the empty result
(success, not error). -/
theorem batchWrite_unprocessed_field_shape (r : BatchWriteItemRequest) (json : JsonValue)
    (hr : batchWriteValidate r = none) :
    ((∀ tbls, json.getField "UnprocessedItems" ≠ some (.obj tbls)) →
        BatchWriteItem r (.ok json) = .error .MalformedResponse) ∧
    (json = .obj [("UnprocessedItems", .obj [])] →
        BatchWriteItem r (.ok json) = .ok []) := by
  have hdisp : BatchWriteItem r (.ok json) = parseBatchWriteResponse json := by
    simp [BatchWriteItem, hr]
  constructor
  · intro habs
    rw [hdisp]
    unfold parseBatchWriteResponse
    split
    · rename_i tables heq
      exact absurd heq (habs tables)
    · rfl
  · intro hjson
    rw [hdisp, hjson]
    rfl

/-- A valid one-item request. -/
def req1 : BatchWriteItemRequest := ⟨[("T", ⟨[], [noAttrItem]⟩)]⟩

/-- A response whose UnprocessedItems value is a string, not an object. -/
def respBadShape : JsonValue := .obj [("UnprocessedItems", .str "oops")]

theorem batchWrite_unprocessed_field_shape_w :
    BatchWriteItem req1 (.ok respBadShape) = .error .MalformedResponse ∧
    BatchWriteItem req1 (.ok respEmpty) = .ok [] := by
  constructor
  · refine (batchWrite_unprocessed_field_shape req1 respBadShape (by decide)).1 ?_
    intro tbls h
    rw [show respBadShape.getField "UnprocessedItems" = some (.str "oops") from rfl] at h
    simp at h
  · exact (batchWrite_unprocessed_field_shape req1 respEmpty (by decide)).2 rfl

/-- One unprocessed put entry carrying a numeric id attribute. -/
def putEntry (v : String) : JsonValue :=
  .obj [("PutRequest", .obj [("Item", .obj [("id", .obj [("N", .str v)])])])]

/-- An item with the single attribute id = Number v. -/
def idItem (v : String) : Item := ⟨[⟨TYPE_NUMBER, "id", v, []⟩]⟩

/-- The spec's example response, one unprocessed put on table T. -/
def resp7 : JsonValue := .obj [("UnprocessedItems", .obj [("T", .arr [putEntry "1"])])]

/-- Two unprocessed puts on table T, in response order 1 then 2. -/
def resp7b : JsonValue :=
  .obj [("UnprocessedItems", .obj [("T", .arr [putEntry "1", putEntry "2"])])]

/-- C7: BatchWriteItem rebuilds one Item per unprocessed entry, keyed by table
name and then by the entry's operation-kind string, appending within a
table/kind in response order: the spec's single-entry example yields table
"T", kind "PutRequest", with exactly the item id = Number "1", and a
two-entry response keeps the entries' order. -/
theorem batchWrite_unprocessed_reconstruction :
    BatchWriteItem req1 (.ok resp7) = .ok [("T", [("PutRequest", [idItem "1"])])] ∧
    BatchWriteItem req1 (.ok resp7b) =
      .ok [("T", [("PutRequest", [idItem "1", idItem "2"])])] := by
  constructor <;> rfl

/-- C8: GetItem returns NotFound exactly when the successfully fetched
response carries no "Item" field, and a present but empty "Item" object
yields an item with zero attributes, not an error. -/
theorem getItem_notFound_iff :
    (∀ json : JsonValue,
        GetItem (.ok json) = .error .NotFound ↔ checkGet json "Item" = none) ∧
    GetItem (.ok (.obj [("Item", .obj [])])) = .ok [] := by
  constructor
  · intro json
    constructor
    · intro h
      rcases hc : checkGet json "Item" with _ | v
      · rfl
      · exfalso
        simp only [GetItem] at h
        rw [hc] at h
        cases v <;> simp at h
    · intro h
      simp [GetItem, h]
  · rfl

/-- Decoding a set-tagged wire object: probes before the matching tag fail
since the single key is the set tag, and the Go element loop is the setElem
map. -/
theorem parse_set_tag (tag key : String) (vals : List JsonValue)
    (h : isSetType tag = true) :
    parseOneAttribute key (.obj [(tag, .arr vals)]) =
      some ⟨tag, key, "", vals.map setElem⟩ := by
  unfold isSetType at h
  simp only [Bool.or_eq_true, beq_iff_eq] at h
  rcases h with (h | h) | h <;> subst h <;> rfl

theorem map_setElem_str (l : List String) : (l.map JsonValue.str).map setElem = l := by
  induction l with
  | nil => rfl
  | cons s rest ih => simp [setElem, ih]

/-- C9: decoding the encoded wire form of an attribute of any of the six
types returns it unchanged, set element order included, provided the
attribute satisfies the data-model invariant (the inert field of the pair
Value/SetValues is empty). -/
theorem attribute_roundtrip (a : Attribute)
    (htype : (isScalarType a.Type' || isSetType a.Type') = true)
    (hwf : wellFormedAttribute a = true) :
    parseOneAttribute a.Name (encodeAttribute a) = some a := by
  obtain ⟨t, name, value, setvals⟩ := a
  unfold wellFormedAttribute at hwf
  simp only [Bool.or_eq_true, Bool.and_eq_true, beq_iff_eq] at hwf
  rcases hwf with ⟨hsc, hempty⟩ | ⟨hset, hval⟩
  · rw [List.isEmpty_iff] at hempty
    subst hempty
    unfold isScalarType at hsc
    simp only [Bool.or_eq_true, beq_iff_eq] at hsc
    rcases hsc with (h | h) | h <;> subst h <;> rfl
  · subst hval
    unfold isSetType at hset
    simp only [Bool.or_eq_true, beq_iff_eq] at hset
    rcases hset with (h | h) | h <;> subst h
    · rw [show encodeAttribute ⟨TYPE_STRING_SET, name, "", setvals⟩ =
          JsonValue.obj [(TYPE_STRING_SET, .arr (setvals.map .str))] from rfl,
        parse_set_tag _ _ _ (by decide), map_setElem_str]
    · rw [show encodeAttribute ⟨TYPE_NUMBER_SET, name, "", setvals⟩ =
          JsonValue.obj [(TYPE_NUMBER_SET, .arr (setvals.map .str))] from rfl,
        parse_set_tag _ _ _ (by decide), map_setElem_str]
    · rw [show encodeAttribute ⟨TYPE_BINARY_SET, name, "", setvals⟩ =
          JsonValue.obj [(TYPE_BINARY_SET, .arr (setvals.map .str))] from rfl,
        parse_set_tag _ _ _ (by decide), map_setElem_str]

/-- A multi-element string-set attribute. -/
def ssAttr : Attribute := ⟨TYPE_STRING_SET, "tags", "", ["x", "y", "z"]⟩

theorem attribute_roundtrip_w :
    parseOneAttribute ssAttr.Name (encodeAttribute ssAttr) = some ssAttr :=
  attribute_roundtrip ssAttr (by decide) (by decide)

/-- C10: decoding a set-tagged wire attribute keeps exactly the wire
sequence's length and order in SetValues, with every string element kept and
every non-string element turned into "" at its position (neither skipped nor
an error). -/
theorem parse_set_attribute_elements (tag key : String) (vals : List JsonValue)
    (h : isSetType tag = true) :
    parseOneAttribute key (.obj [(tag, .arr vals)]) =
      some ⟨tag, key, "", vals.map setElem⟩ ∧
    (vals.map setElem).length = vals.length ∧
    (∀ i : Nat, (vals.map setElem)[i]? = (vals[i]?).map setElem) ∧
    (∀ s, setElem (.str s) = s) ∧
    (∀ v : JsonValue, (∀ s, v ≠ .str s) → setElem v = "") := by
  refine ⟨parse_set_tag tag key vals h, List.length_map _ _, ?_, fun s => rfl, ?_⟩
  · intro i
    exact List.getElem?_map _ _ _
  · intro v hv
    cases v
    case str s => exact absurd rfl (hv s)
    all_goals rfl

theorem parse_set_attribute_elements_w :
    parseOneAttribute "k" (.obj [(TYPE_NUMBER_SET, .arr [.str "1", .bool true, .str "2"])]) =
      some ⟨TYPE_NUMBER_SET, "k", "", ["1", "", "2"]⟩ := by
  have h := (parse_set_attribute_elements TYPE_NUMBER_SET "k"
    [.str "1", .bool true, .str "2"] (by decide)).1
  rw [h]
  rfl
